import Mathlib

/-!
# Verification of the graph-import resolution and reasoning-orchestration core

Shallow embedding of `cmem_plugin_reason` (utils.py, plugin_reason.py) and
`cmem_plugin_robotreason` (plugin_robotreason.py).  Python dicts (insertion
ordered, unique keys) are modelled as association lists `List (String × String)`
extended only at the tail; external collaborators (the remote graph store's
tree service, the `validators.url` library, the subprocess layer) are
modelled as explicit function parameters, and code that raises is modelled with
`Except`.
-/

/-- Python `k in graphs` membership test on a dict
(utils.py lines 92/97, plugin_robotreason.py lines 289/294). -/
def dictContains (g : List (String × String)) (k : String) : Bool :=
  g.any (fun p => p.1 == k)

/-- The keys of a dict, in insertion order. -/
def dictKeys (g : List (String × String)) : List String :=
  g.map Prod.fst

/-- The values of a dict, in insertion order. -/
def dictValues (g : List (String × String)) : List String :=
  g.map Prod.snd

/-- Inner loop body of the import-closure walk
(utils.py lines 95-98, plugin_robotreason.py lines 292-295):
`if iri not in graphs and not (excluded iri): graphs[iri] = fresh-name`.
The `Nat` component counts fresh-name draws (one per insertion), so that the
random-token variant can index its token stream. -/
def insStep (excl : String → Bool) (nm : Nat → String → String)
    (st : List (String × String) × Nat) (iri : String) :
    List (String × String) × Nat :=
  if dictContains st.1 iri || excl iri then st
  else (st.1 ++ [(iri, nm st.2 iri)], st.2 + 1)

/-- Outer loop body of the import-closure walk
(utils.py lines 91-98, plugin_robotreason.py lines 288-295):
if the root is not yet a key, insert it with a fresh name, fetch its import
tree from the remote service (`tree`, whose flattened values the inner loop
consumes via `tree["tree"].values()`), and run the inner loop. -/
def addRoot (tree : String → List (List String)) (excl : String → String → Bool)
    (nm : Nat → String → String) (st : List (String × String) × Nat)
    (root : String) : List (String × String) × Nat :=
  if dictContains st.1 root then st
  else ((tree root).flatten).foldl (insStep (excl root) nm)
    (st.1 ++ [(root, nm st.2 root)], st.2 + 1)

/-- The common import-closure walk shared by both plugin variants, folded over
the list of roots starting from the empty dict. -/
def graphsClosure (tree : String → List (List String))
    (excl : String → String → Bool) (nm : Nat → String → String)
    (roots : List String) : List (String × String) :=
  (roots.foldl (addRoot tree excl nm) ([], 0)).1

/-- Python `graph_iri[-1]` on a string: its last character as a one-character
string (utils.py line 97; an empty string would raise `IndexError` there, the
model returns `""`). -/
def lastStr (s : String) : String :=
  match s.data.getLast? with
  | some c => String.mk [c]
  | none => ""

/-- Fresh filename of the random-token variant: `f"{token_hex(8)}.nt"`
(utils.py lines 93/98); `tok` is the stream of sampled tokens, consumed one
per insertion. -/
def tokenName (tok : Nat → String) (n : Nat) (_ : String) : String :=
  tok n ++ ".nt"

/-- `get_graphs_tree` of utils.py lines 88-99.  The roots are
`graph_iris[:-1]`; the inner loop skips an imported `iri` when
`iri == graph_iri[-1]` — the last *character* of the current root, as written
in the source (line 97), not the last element of the tuple. -/
def get_graphs_tree (tok : Nat → String) (tree : String → List (List String))
    (graph_iris : List String) : List (String × String) :=
  graphsClosure tree (fun root iri => iri == lastStr root) (tokenName tok)
    graph_iris.dropLast

/-! ## convert_iri_to_filename (plugin_robotreason.py lines 35-42)

The pipeline is modelled character-exactly after the `unicodedata`/`re` calls:
the `unicodedata.normalize("NFKD", value).encode("ascii", "ignore")` step is
modelled as the identity followed by a filter keeping code points below 128
(NFKD maps any string to some string and `encode("ascii", "ignore")` then
keeps exactly the sub-128 code points; every theorem below quantifies over all
input strings, so it covers the composite, and on ASCII inputs — all concrete
inputs used here — NFKD is the identity). -/

/-- `encode("ascii", "ignore")`: keep only code points below 128. -/
def asciiFilter (l : List Char) : List Char :=
  l.filter (fun c => c.toNat < 128)

/-- Python `str.lower()` on an ASCII character. -/
def pyLowerChar (c : Char) : Char :=
  if 65 ≤ c.toNat ∧ c.toNat ≤ 90 then Char.ofNat (c.toNat + 32) else c

/-- Python regex `\w` on the ASCII range: `[A-Za-z0-9_]`. -/
def isPyWordAscii (c : Char) : Bool :=
  c.isAlpha || c.isDigit || c == '_'

/-- Python regex `\s` on the ASCII range:
`[ \t\n\r\v\f]` plus the separator control characters `\x1c`-`\x1f`. -/
def isPySpaceAscii (c : Char) : Bool :=
  c == ' ' || c == '\t' || c == '\n' || c == '\r' || c.toNat == 11 ||
    c.toNat == 12 || c.toNat == 28 || c.toNat == 29 || c.toNat == 30 ||
    c.toNat == 31

/-- A character matched by the regex class `[-\s]`. -/
def isDashSpace (c : Char) : Bool :=
  c == '-' || isPySpaceAscii c

/-- `re.sub(r"[-\s]+", "-", value)`: each maximal run of `[-\s]` characters
becomes a single hyphen.  The flag records whether the previous character
belonged to such a run. -/
def collapseDashSpace (inRun : Bool) : List Char → List Char
  | [] => []
  | c :: rest =>
    if isDashSpace c then
      if inRun then collapseDashSpace true rest
      else '-' :: collapseDashSpace true rest
    else c :: collapseDashSpace false rest

/-- A character stripped by Python `str.strip("-_")`. -/
def isStripChar (c : Char) : Bool :=
  c == '-' || c == '_'

/-- Python `str.strip("-_")`: drop leading and trailing `-`/`_` characters. -/
def pyStripDashUnderscore (l : List Char) : List Char :=
  ((l.dropWhile isStripChar).reverse.dropWhile isStripChar).reverse

/-- The body (everything before the `.nt` suffix) of
`convert_iri_to_filename` (plugin_robotreason.py lines 35-42):
lowercase; `.` → `_`; `/` → `_`; delete `[^\w\s-]`; collapse `[-\s]+` to `-`;
strip `-_`. -/
def convertCore (l : List Char) : List Char :=
  let v0 := asciiFilter l
  let v1 := (v0.map pyLowerChar).map (fun c => if c == '.' then '_' else c)
  let v2 := (v1.map pyLowerChar).map (fun c => if c == '/' then '_' else c)
  let v3 := (v2.map pyLowerChar).filter
    (fun c => isPyWordAscii c || isPySpaceAscii c || c == '-')
  pyStripDashUnderscore (collapseDashSpace false v3)

/-- `convert_iri_to_filename` of plugin_robotreason.py lines 35-42. -/
def convert_iri_to_filename (s : String) : String :=
  String.mk (convertCore s.data ++ ['.', 'n', 't'])

/-- `get_graphs_tree` of plugin_robotreason.py lines 285-296: the roots are
the data and ontology graph IRIs, no exclusion is applied, and filenames come
from the deterministic slug transform. -/
def get_graphs_tree_robot (tree : String → List (List String))
    (data_graph_iri ontology_graph_iri : String) : List (String × String) :=
  graphsClosure tree (fun _ _ => false)
    (fun _ iri => convert_iri_to_filename iri) [data_graph_iri, ontology_graph_iri]

/-! ## Staged graph files (plugin_reason.py lines 283-299, plugin_robotreason.py lines 272-283) -/

/-- The import statement `<subj> <http://www.w3.org/2002/07/owl#imports> <obj> .`
as written by both `get_graphs` methods and filtered by
`ReasonPlugin.get_graphs` (plugin_reason.py lines 290-299,
plugin_robotreason.py lines 280-283). -/
def importStatement (subj obj : String) : List Char :=
  "<".data ++ subj.data ++ "> <http://www.w3.org/2002/07/owl#imports> <".data
    ++ obj.data ++ "> .".data

/-- Staged file content written by `RobotReasonPlugin.get_graphs`
(plugin_robotreason.py lines 276-283) for graph `graph`: the fetched text
verbatim, plus — for the data graph only — a newline and the synthetic
owl:imports statement pointing at the ontology graph. -/
def robot_staged_data (fetched : List Char) (graph data_graph ontology_graph : String) :
    List Char :=
  fetched ++
    (if graph = data_graph then '\n' :: importStatement data_graph ontology_graph
     else [])

/-- Staged file content written by `ReasonPlugin.get_graphs`
(plugin_reason.py lines 285-299) for graph `iri`: every fetched line except
those equal to `<iri> owl:imports <output_graph> .` is written followed by a
newline, and for the data graph the synthetic import statement pointing at the
ontology graph is appended (without a trailing newline).  `fetchedLines` is
the result of Python `splitlines()` on the fetched text. -/
def reason_staged_data (fetchedLines : List (List Char))
    (iri data_graph ontology_graph output_graph : String) : List Char :=
  ((fetchedLines.filter (fun l => l ≠ importStatement iri output_graph)).map
      (fun l => l ++ ['\n'])).flatten ++
    (if iri = data_graph then importStatement data_graph ontology_graph else [])

/-- Split a character list at newline characters (the line decomposition used
to state what a staged file contains). -/
def splitNl : List Char → List (List Char)
  | [] => [[]]
  | c :: rest =>
    if c = '\n' then [] :: splitNl rest
    else
      match splitNl rest with
      | [] => [[c]]
      | l :: ls => (c :: l) :: ls

/-! ## Profile validation (utils.py lines 205-217) -/

/-- The success marker tested by `validate_profiles` (utils.py line 213):
`response.stdout.endswith(b"[Ontology and imports closure in profile]\n\n")`. -/
def profileMarker : String :=
  "[Ontology and imports closure in profile]\n\n"

/-- The fixed profile order of utils.py line 209. -/
def owlProfiles : List String :=
  ["Full", "DL", "EL", "QL", "RL"]

/-- Loop of `validate_profiles` (utils.py lines 209-216).  `ok p` tells whether
the engine's captured stdout for profile `p` ends with the success marker.
Returns the accumulated valid profiles and the list of profiles for which the
engine subprocess was actually invoked; a failing `Full` check hits the
`break` (line 216) without touching the remaining profiles. -/
def validateProfilesLoop (ok : String → Bool) : List String → List String × List String
  | [] => ([], [])
  | p :: rest =>
    if ok p then
      ((validateProfilesLoop ok rest).1.cons p, (validateProfilesLoop ok rest).2.cons p)
    else if p = "Full" then ([], [p])
    else ((validateProfilesLoop ok rest).1, (validateProfilesLoop ok rest).2.cons p)

/-- `validate_profiles` of utils.py lines 205-217, with the engine's captured
stdout per profile supplied as `stdout`. -/
def validate_profiles (stdout : String → String) : List String :=
  (validateProfilesLoop (fun p => (stdout p).endsWith profileMarker) owlProfiles).1

/-- The profiles for which `validate_profiles` actually invokes the engine. -/
def validate_profiles_checked (stdout : String → String) : List String :=
  (validateProfilesLoop (fun p => (stdout p).endsWith profileMarker) owlProfiles).2

/-! ## ReasonPlugin constructor validation (plugin_reason.py lines 189-247) -/

/-- The fourteen axiom-generator flags of `ReasonPlugin.__init__`
(plugin_reason.py lines 213-228), in the dict's insertion order. -/
structure AxiomFlags where
  sub_class : Bool
  equivalent_class : Bool
  disjoint_classes : Bool
  data_property_characteristic : Bool
  equivalent_data_properties : Bool
  sub_data_property : Bool
  class_assertion : Bool
  property_assertion : Bool
  equivalent_object_property : Bool
  inverse_object_properties : Bool
  object_property_characteristic : Bool
  sub_object_property : Bool
  object_property_range : Bool
  object_property_domain : Bool
deriving DecidableEq

/-- The flag values in dict order (`self.axioms.values()`). -/
def AxiomFlags.values (a : AxiomFlags) : List Bool :=
  [a.sub_class, a.equivalent_class, a.disjoint_classes,
   a.data_property_characteristic, a.equivalent_data_properties,
   a.sub_data_property, a.class_assertion, a.property_assertion,
   a.equivalent_object_property, a.inverse_object_properties,
   a.object_property_characteristic, a.sub_object_property,
   a.object_property_range, a.object_property_domain]

/-- Constructor parameters of `ReasonPlugin.__init__` that take part in the
validation block (plugin_reason.py lines 229-247). -/
structure ReasonConfig where
  data_graph_iri : String
  ontology_graph_iri : String
  output_graph_iri : String
  reasoner : String
  axioms : AxiomFlags
  max_ram_percentage : Int
deriving DecidableEq

/-- The reasoner keys of the `REASONERS` ordered dict (utils.py lines 31-40). -/
def reasonerKeys : List String :=
  ["elk", "emr", "hermit", "jfact", "structural", "whelk"]

/-- The error-message pieces accumulated by `ReasonPlugin.__init__` before the
RAM-percentage check (plugin_reason.py lines 229-243).  `validUrl` models the
external `validators.url` predicate. -/
def reasonInitErrorsBeforeRam (validUrl : String → Bool) (cfg : ReasonConfig) : String :=
  (if !validUrl cfg.data_graph_iri then
    "Invalid IRI for parameter \"Data graph IRI\". " else "") ++
  (if !validUrl cfg.ontology_graph_iri then
    "Invalid IRI for parameter \"Ontology graph IRI\". " else "") ++
  (if !validUrl cfg.output_graph_iri then
    "Invalid IRI for parameter \"Result graph IRI\". " else "") ++
  (if cfg.output_graph_iri ≠ "" ∧ cfg.output_graph_iri = cfg.data_graph_iri then
    "Result graph IRI cannot be the same as the data graph IRI. " else "") ++
  (if cfg.output_graph_iri ≠ "" ∧ cfg.output_graph_iri = cfg.ontology_graph_iri then
    "Result graph IRI cannot be the same as the ontology graph IRI. " else "") ++
  (if cfg.reasoner ∉ reasonerKeys then
    "Invalid value for parameter \"Reasoner\". " else "") ++
  (if true ∉ cfg.axioms.values then
    "No axiom generator selected. " else "")

/-- The full error message accumulated by `ReasonPlugin.__init__`
(plugin_reason.py lines 229-245); the RAM check is
`max_ram_percentage not in range(1, 101)` (line 244). -/
def reasonInitErrors (validUrl : String → Bool) (cfg : ReasonConfig) : String :=
  reasonInitErrorsBeforeRam validUrl cfg ++
  (if cfg.max_ram_percentage < 1 ∨ 100 < cfg.max_ram_percentage then
    "Invalid value for parameter \"Maximum RAM Percentage\". " else "")

/-- `ReasonPlugin.__init__` validation outcome (plugin_reason.py lines
246-247): `if errors: raise ValueError(errors[:-1])`.  The constructor makes
no network call and starts no subprocess, so its entire effect on the claims
is this accept/reject decision. -/
def reason_plugin_init (validUrl : String → Bool) (cfg : ReasonConfig) :
    Except String Unit :=
  if reasonInitErrors validUrl cfg ≠ "" then
    .error ((reasonInitErrors validUrl cfg).dropRight 1)
  else .ok ()

/-! ## RobotReasonPlugin set_axioms and execution trace
(plugin_robotreason.py lines 298-322 and 378-386) -/

/-- `RobotReasonPlugin.set_axioms` (plugin_robotreason.py lines 298-322):
join the labels of the selected generators with spaces; an empty join raises
`ValueError("No axioms selected.")`.  The robot variant's flag set matches
`AxiomFlags` field-for-field (its third flag is spelled `disjoint_class` and
labelled `DisjointClass` in the source). -/
def robot_set_axioms (a : AxiomFlags) : Except String String :=
  let axioms := String.intercalate " "
    (List.filterMap (fun p => if p.2 then some p.1 else none)
      [("SubClass", a.sub_class), ("EquivalentClass", a.equivalent_class),
       ("DisjointClass", a.disjoint_classes),
       ("DataPropertyCharacteristic", a.data_property_characteristic),
       ("EquivalentDataProperties", a.equivalent_data_properties),
       ("SubDataProperty", a.sub_data_property),
       ("ClassAssertion", a.class_assertion),
       ("PropertyAssertion", a.property_assertion),
       ("EquivalentObjectProperty", a.equivalent_object_property),
       ("InverseObjectProperties", a.inverse_object_properties),
       ("ObjectPropertyCharacteristic", a.object_property_characteristic),
       ("SubObjectProperty", a.sub_object_property),
       ("ObjectPropertyRange", a.object_property_range),
       ("ObjectPropertyDomain", a.object_property_domain)])
  if axioms = "" then .error "No axioms selected." else .ok axioms

/-- Observable events of a plugin execution, in order. -/
inductive PluginEvent where
  | network (call : String)
  | fileWrite (name : String)
  | subprocess
  | raised (msg : String)
deriving DecidableEq

/-- Event trace of `RobotReasonPlugin.execute` (plugin_robotreason.py lines
378-386): `get_graphs_tree` fetches the import tree of the data graph and —
unless the ontology graph already entered the dict — of the ontology graph
(network calls); `get_graphs` fetches every closure member (network calls);
`create_xml_catalog_file` writes the catalog; `reason` evaluates
`set_axioms()` while building the command (line 331), so a `ValueError` from
it is raised before the subprocess starts; otherwise the subprocess runs and
`send_result` posts the result graph (network call). -/
def robot_execute_events (tree : String → List (List String))
    (data_graph_iri ontology_graph_iri result_iri : String) (a : AxiomFlags) :
    List PluginEvent :=
  let afterData := addRoot tree (fun _ _ => false)
    (fun _ iri => convert_iri_to_filename iri) ([], 0) data_graph_iri
  let graphs := get_graphs_tree_robot tree data_graph_iri ontology_graph_iri
  ([PluginEvent.network ("import-tree " ++ data_graph_iri)] ++
    (if dictContains afterData.1 ontology_graph_iri then []
     else [PluginEvent.network ("import-tree " ++ ontology_graph_iri)])) ++
  graphs.map (fun p => PluginEvent.network ("get " ++ p.1)) ++
  [PluginEvent.fileWrite "catalog-v001.xml"] ++
  (match robot_set_axioms a with
   | .error e => [PluginEvent.raised e]
   | .ok _ => [PluginEvent.subprocess,
               PluginEvent.network ("post " ++ result_iri)])

/-! ## Subprocess result interpretation
(plugin_reason.py lines 328-334, plugin_robotreason.py line 353) -/

/-- A completed subprocess: exit status and captured output. -/
structure ProcResult where
  returncode : Int
  stdout : String
  stderr : String
deriving DecidableEq

/-- `ReasonPlugin.reason` result interpretation (plugin_reason.py lines
328-334): a non-zero exit raises `OSError` with the captured stdout if
non-empty, else the captured stderr if non-empty, else `"ROBOT error"`. -/
def reason_subprocess_check (r : ProcResult) : Except String Unit :=
  if r.returncode ≠ 0 then
    if r.stdout ≠ "" then .error r.stdout
    else if r.stderr ≠ "" then .error r.stderr
    else .error "ROBOT error"
  else .ok ()

/-- Outcome of `RobotReasonPlugin.reason` (plugin_robotreason.py lines
324-353) as a function of the completed subprocess: the only error it can
raise comes from `set_axioms()` during command construction; the subprocess
is run with `check=False`, its output is not captured and its exit status is
never inspected (line 353), so the completed process result is discarded. -/
def robot_reason_outcome (a : AxiomFlags) (r : ProcResult) : Except String Unit :=
  match robot_set_axioms a with
  | .error e => .error e
  | .ok _ => .ok ()

/-! ## Result publication (utils.py lines 102-111, plugin_robotreason.py lines 355-362) -/

/-- `send_result` of utils.py lines 102-111, as a function of the remote
store's response status: any status other than 204 raises `OSError` with a
message carrying the status code. -/
def send_result (status : Int) : Except String Unit :=
  if status ≠ 204 then
    .error ("Error posting result graph (status code " ++ toString status ++ ").")
  else .ok ()

/-- `RobotReasonPlugin.send_result` (plugin_robotreason.py lines 355-362):
posts the result file and returns without inspecting the response status. -/
def robot_send_result (status : Int) : Except String Unit :=
  .ok ()

/-! ## Command construction
(plugin_reason.py lines 301-327, plugin_robotreason.py lines 324-352) -/

/-- The command string built by `ReasonPlugin.reason` (plugin_reason.py lines
306-327) and handed to `robot()`. -/
def reason_cmd (temp dataFile reasoner axioms utctime data_iri ont_iri out_iri : String) :
    String :=
  "reason --input \"" ++ temp ++ "/" ++ dataFile ++ "\" " ++
  "--reasoner " ++ reasoner ++ " " ++
  "--axiom-generators \"" ++ axioms ++ "\" " ++
  "--include-indirect true " ++
  "--exclude-duplicate-axioms true " ++
  "--exclude-owl-thing true " ++
  "--exclude-tautologies all " ++
  "--exclude-external-entities " ++
  "reduce --reasoner " ++ reasoner ++ " " ++
  "unmerge --input \"" ++ temp ++ "/" ++ dataFile ++ "\" " ++
  "annotate --ontology-iri \"" ++ out_iri ++ "\" " ++
  "--remove-annotations " ++
  "--language-annotation rdfs:label \"Eccenca Reasoning Result " ++ utctime ++ "\" en " ++
  "--language-annotation rdfs:comment \"Reasoning result set of <" ++ data_iri ++
    "> and <" ++ ont_iri ++ ">\" en " ++
  "--link-annotation dc:source \"" ++ data_iri ++ "\" " ++
  "--link-annotation dc:source \"" ++ ont_iri ++ "\" " ++
  "--typed-annotation dc:created \"" ++ utctime ++ "\" xsd:dateTime " ++
  "--output \"" ++ temp ++ "/result.ttl\""

/-- The command string built by `RobotReasonPlugin.reason`
(plugin_robotreason.py lines 326-352); `robotPath` is the `ROBOT` binary path
of line 32. -/
def robot_cmd (robotPath temp dataFile reasoner axioms utctime data_iri ont_iri
    result_iri : String) : String :=
  robotPath ++ " merge --input \"" ++ temp ++ "/" ++ dataFile ++
    "\" --collapse-import-closure false " ++
  "reason --reasoner " ++ reasoner ++ " " ++
  "--axiom-generators \"" ++ axioms ++ "\" " ++
  "--include-indirect true " ++
  "--exclude-duplicate-axioms true " ++
  "--exclude-owl-thing true " ++
  "--exclude-tautologies all " ++
  "--exclude-external-entities " ++
  "reduce --reasoner " ++ reasoner ++ " " ++
  "unmerge --input \"" ++ temp ++ "/" ++ dataFile ++ "\" " ++
  "annotate --ontology-iri \"" ++ result_iri ++ "\" " ++
  "--remove-annotations " ++
  "--language-annotation rdfs:label \"Eccenca Reasoning Result " ++ utctime ++ "\" en " ++
  "--language-annotation rdfs:comment \"Reasoning result set of <" ++ data_iri ++
    "> and <" ++ ont_iri ++ ">\" en " ++
  "--language-annotation prov:wasGeneratedBy \"cmem-plugin-robotreason (" ++
    reasoner ++ ")\" en " ++
  "--link-annotation prov:wasDerivedFrom \"" ++ data_iri ++ "\" " ++
  "--link-annotation prov:wasDerivedFrom \"" ++ ont_iri ++ "\" " ++
  "--typed-annotation dc:created \"" ++ utctime ++ "\" xsd:dateTime " ++
  "--output \"" ++ temp ++ "/result.ttl\""

/-! ## The UTC timestamp
(plugin_reason.py line 305, plugin_robotreason.py line 327):
`str(datetime.fromtimestamp(int(time()), tz=UTC))[:-6].replace(" ", "T") + "Z"`.
`int(time())` truncates to whole seconds, so the datetime has microsecond 0. -/

/-- The decimal digit character for `n < 10`. -/
def digitChar (n : Nat) : Char :=
  Char.ofNat (48 + n)

/-- Decimal representation of a natural number, most significant digit
first. -/
def natStr (n : Nat) : List Char :=
  if h : n < 10 then [digitChar n]
  else natStr (n / 10) ++ [digitChar (n % 10)]
decreasing_by
  exact Nat.div_lt_self (by omega) (by omega)

/-- Zero-pad to (at least) two digits, as Python datetime prints months,
days, hours, minutes and seconds. -/
def pad2 (n : Nat) : List Char :=
  (if n < 10 then ['0'] else []) ++ natStr n

/-- Zero-pad to (at least) four digits, as Python datetime prints years. -/
def pad4 (n : Nat) : List Char :=
  (if n < 10 then ['0', '0', '0']
   else if n < 100 then ['0', '0']
   else if n < 1000 then ['0']
   else []) ++ natStr n

/-- Modelled from the spec and the Python standard library: `str()` of an
aware UTC `datetime` with `microsecond == 0` prints
`"YYYY-MM-DD HH:MM:SS+00:00"` (zero-padded fields, no microsecond part). -/
def pyDatetimeStr (y mo d h mi s : Nat) : List Char :=
  pad4 y ++ '-' :: pad2 mo ++ '-' :: pad2 d ++ ' ' :: pad2 h ++ ':' :: pad2 mi
    ++ ':' :: pad2 s ++ "+00:00".data

/-- The timestamp expression of plugin_reason.py line 305 and
plugin_robotreason.py line 327: drop the 6-character timezone suffix,
replace the single space separator by `T`, append `Z`. -/
def utcStamp (y mo d h mi s : Nat) : List Char :=
  (((pyDatetimeStr y mo d h mi s).take ((pyDatetimeStr y mo d h mi s).length - 6)).map
    (fun c => if c = ' ' then 'T' else c)) ++ ['Z']

/-! ## Substring occurrence -/

/-- Does `pat` occur as a prefix of `l`? -/
def startsWithChars : List Char → List Char → Bool
  | [], _ => true
  | _ :: _, [] => false
  | a :: as, b :: bs => a == b && startsWithChars as bs

/-- Does `pat` occur as a contiguous segment of `l`?  (Executable, used for
concrete counterexamples.) -/
def hasSegment (pat : List Char) : List Char → Bool
  | [] => pat.isEmpty
  | c :: rest => startsWithChars pat (c :: rest) || hasSegment pat rest

/-- `pat` occurs as a contiguous segment of the string `s`. -/
def SegIn (pat : String) (s : String) : Prop :=
  ∃ pre post, s.data = pre ++ pat.data ++ post

/-- Did the constructor accept the configuration? -/
def isAccepted (e : Except String Unit) : Bool :=
  match e with
  | .ok _ => true
  | .error _ => false

/-- Replace the RAM-percentage parameter, keeping everything else. -/
def setRam (cfg : ReasonConfig) (p : Int) : ReasonConfig :=
  { cfg with max_ram_percentage := p }

/-! ## General helper lemmas -/

theorem string_append_eq_empty {s t : String} : s ++ t = "" ↔ s = "" ∧ t = "" := by
  constructor
  · intro h
    have hd := congrArg String.data h
    rw [String.data_append] at hd
    simp at hd
    exact ⟨String.ext hd.1, String.ext hd.2⟩
  · rintro ⟨rfl, rfl⟩
    rfl

theorem charOfNat_toNat {n : Nat} (h : n < 1000) : (Char.ofNat n).toNat = n := by
  have hv : n.isValidChar := Or.inl (by omega)
  simp [Char.ofNat, hv, Char.ofNatAux, Char.toNat, UInt32.toNat, UInt32.ofNat',
    BitVec.toNat_ofNat]

/-! ## Claim theorems -/

/-- Claim C1: the spec demands that the output graph identifier, passed as the
excluded (last) element of the tuple, is never a key of the closure returned
by `get_graphs_tree` — as the function's own docstring also states.  The code
instead compares each imported IRI against `graph_iri[-1]`, the last
*character* of the current root, so when the data graph declares an import of
the output graph the output graph does become a key.  Concretely: roots
`("https://ex/data", "https://ex/vocab", "https://ex/result")` where the
tree service reports that `https://ex/data` imports
`https://ex/result`; the returned mapping contains the output IRI as a key. -/
theorem c1_output_graph_not_excluded :
    dictContains
      (get_graphs_tree (fun n => toString n)
        (fun r => if r = "https://ex/data" then [["https://ex/result"]] else [])
        ["https://ex/data", "https://ex/vocab", "https://ex/result"])
      "https://ex/result" = true := by
  decide

/-- Claim C8: with every other constructor check passing, the RAM-percentage
values 1 and 100 are accepted by `ReasonPlugin.__init__` and the values 0 and
101 are rejected with the configuration error message (the combined message
with its trailing space stripped), before any execution. -/
theorem c8_max_ram_percentage_bounds (validUrl : String → Bool)
    (cfg : ReasonConfig) (h : reasonInitErrorsBeforeRam validUrl cfg = "") :
    reason_plugin_init validUrl (setRam cfg 1) = .ok () ∧
    reason_plugin_init validUrl (setRam cfg 100) = .ok () ∧
    reason_plugin_init validUrl (setRam cfg 0) =
      .error "Invalid value for parameter \"Maximum RAM Percentage\"." ∧
    reason_plugin_init validUrl (setRam cfg 101) =
      .error "Invalid value for parameter \"Maximum RAM Percentage\"." := by
  have key : ∀ p : Int, reasonInitErrors validUrl (setRam cfg p) =
      reasonInitErrorsBeforeRam validUrl cfg ++
        (if p < 1 ∨ 100 < p then
          "Invalid value for parameter \"Maximum RAM Percentage\". " else "") :=
    fun p => rfl
  refine ⟨?_, ?_, ?_, ?_⟩ <;>
    simp [reason_plugin_init, key, h] <;> decide

/-- The concrete otherwise-valid configuration used by the witnesses. -/
def exampleReasonConfig : ReasonConfig :=
  { data_graph_iri := "https://ex/data"
    ontology_graph_iri := "https://ex/vocab"
    output_graph_iri := "https://ex/result"
    reasoner := "elk"
    axioms :=
      { sub_class := true, equivalent_class := false, disjoint_classes := false
        data_property_characteristic := false, equivalent_data_properties := false
        sub_data_property := false, class_assertion := false
        property_assertion := false, equivalent_object_property := false
        inverse_object_properties := false, object_property_characteristic := false
        sub_object_property := false, object_property_range := false
        object_property_domain := false }
    max_ram_percentage := 20 }

/-- Witness for `c8_max_ram_percentage_bounds` at a concrete configuration. -/
theorem c8_max_ram_percentage_bounds_witness :
    reasonInitErrorsBeforeRam (fun _ => true) exampleReasonConfig = "" ∧
    reason_plugin_init (fun _ => true) (setRam exampleReasonConfig 1) = .ok () ∧
    reason_plugin_init (fun _ => true) (setRam exampleReasonConfig 100) = .ok () ∧
    reason_plugin_init (fun _ => true) (setRam exampleReasonConfig 0) =
      .error "Invalid value for parameter \"Maximum RAM Percentage\"." ∧
    reason_plugin_init (fun _ => true) (setRam exampleReasonConfig 101) =
      .error "Invalid value for parameter \"Maximum RAM Percentage\"." :=
  ⟨by decide, c8_max_ram_percentage_bounds (fun _ => true) exampleReasonConfig (by decide)⟩

/-- Claim C5: `validate_profiles` checks the profiles in the fixed order Full,
DL, EL, QL, RL; when the Full check succeeds the result is exactly the
profiles whose captured stdout ends with the success marker (and all five are
checked); when the Full check fails the result is empty and only Full was
checked — DL, EL, QL, RL are never invoked. -/
theorem c5_validate_profiles_shape (stdout : String → String) :
    validate_profiles stdout =
      (if (stdout "Full").endsWith profileMarker then
        owlProfiles.filter (fun p => (stdout p).endsWith profileMarker)
      else []) ∧
    validate_profiles_checked stdout =
      (if (stdout "Full").endsWith profileMarker then owlProfiles
      else ["Full"]) := by
  cases hF : (stdout "Full").endsWith profileMarker <;>
    cases hD : (stdout "DL").endsWith profileMarker <;>
    cases hE : (stdout "EL").endsWith profileMarker <;>
    cases hQ : (stdout "QL").endsWith profileMarker <;>
    cases hR : (stdout "RL").endsWith profileMarker <;>
    simp [validate_profiles, validate_profiles_checked, validateProfilesLoop,
      owlProfiles, List.filter, hF, hD, hE, hQ, hR]

/-- The all-false axiom flag record (no generator selected). -/
def noAxiomFlags : AxiomFlags :=
  { sub_class := false, equivalent_class := false, disjoint_classes := false
    data_property_characteristic := false, equivalent_data_properties := false
    sub_data_property := false, class_assertion := false
    property_assertion := false, equivalent_object_property := false
    inverse_object_properties := false, object_property_characteristic := false
    sub_object_property := false, object_property_range := false
    object_property_domain := false }

/-- Counterexample to claim C4: in the RobotReason variant the engine
subprocess is run with `check=False`, without capturing output, and its exit
status is never inspected, so an invocation whose subprocess exits with
status 1 and standard output "boom" completes without any fatal error —
contradicting the claim that in both plugin variants a non-zero exit is fatal
with the stdout/stderr/generic message priority. -/
theorem c4_robot_ignores_exit_status :
    robot_reason_outcome (exampleReasonConfig.axioms)
      { returncode := 1, stdout := "boom", stderr := "" } = .ok () := by
  rfl

/-- Claim C4 amended: in the ReasonPlugin variant a non-zero subprocess exit
status raises a fatal error whose message is the captured stdout if
non-empty, else the captured stderr if non-empty, else "ROBOT error", in that
priority order; the RobotReason variant runs the subprocess without checking
its exit status and (provided axiom generators are selected, so that command
construction itself does not raise) reports success whatever the subprocess
did. -/
theorem c4_exit_status_interpretation (r : ProcResult) (a : AxiomFlags)
    (ax : String) (hr : r.returncode ≠ 0) (ha : robot_set_axioms a = .ok ax) :
    reason_subprocess_check r =
      .error (if r.stdout ≠ "" then r.stdout
        else if r.stderr ≠ "" then r.stderr else "ROBOT error") ∧
    robot_reason_outcome a r = .ok () := by
  constructor
  · simp only [reason_subprocess_check, if_pos hr]
    by_cases h1 : r.stdout = "" <;> by_cases h2 : r.stderr = "" <;> simp [h1, h2]
  · simp [robot_reason_outcome, ha]

/-- Witness for `c4_exit_status_interpretation` at a concrete failing
process. -/
theorem c4_exit_status_interpretation_witness :
    reason_subprocess_check { returncode := 1, stdout := "boom", stderr := "" } =
      .error "boom" ∧
    robot_reason_outcome exampleReasonConfig.axioms
      { returncode := 1, stdout := "boom", stderr := "" } = .ok () := by
  have h := c4_exit_status_interpretation
    { returncode := 1, stdout := "boom", stderr := "" }
    exampleReasonConfig.axioms "SubClass" (by decide) (by rfl)
  simpa using h

/-- Counterexample to claim C6: `RobotReasonPlugin.send_result` posts the
result graph and returns without inspecting the response status, so a
replace-style post answered with status 500 does not raise — contradicting
the claim that in both plugin variants any status other than 204 is a fatal
error. -/
theorem c6_robot_ignores_post_status :
    robot_send_result 500 = .ok () := by
  rfl

/-- Claim C6 amended: in the `cmem_plugin_reason` variant, `send_result`
returns normally if and only if the remote store answers 204, and any other
status raises an `OSError` whose message carries the status code; the
RobotReason variant performs the post without checking the response status
and never raises. -/
theorem c6_send_result_status (status : Int) (h : status ≠ 204) :
    (∀ s : Int, send_result s = .ok () ↔ s = 204) ∧
    send_result status =
      .error ("Error posting result graph (status code " ++ toString status ++ ").") ∧
    robot_send_result status = .ok () := by
  refine ⟨fun s => ?_, by simp [send_result, h], rfl⟩
  by_cases hs : s = 204 <;> simp [send_result, hs]

/-- Witness for `c6_send_result_status` at status 500. -/
theorem c6_send_result_status_witness :
    (∀ s : Int, send_result s = .ok () ↔ s = 204) ∧
    send_result 500 =
      .error ("Error posting result graph (status code " ++ toString (500 : Int) ++ ").") ∧
    robot_send_result 500 = .ok () :=
  c6_send_result_status 500 (by decide)

/-- Counterexample to claim C2: in the RobotReason variant a configuration
with zero selected axiom generators is only rejected inside `reason()` (the
`ValueError` from `set_axioms()`), which `execute` reaches after the
tree queries and the graph fetches: the execution trace opens with
four network calls before the rejection, so the run is not rejected before
any network call, and the error is the robot variant's
`"No axioms selected."` rather than the combined configuration message. -/
theorem c2_robot_rejects_after_network_calls :
    robot_execute_events (fun _ => []) "https://ex/data" "https://ex/vocab"
      "https://ex/result" noAxiomFlags =
      [PluginEvent.network "import-tree https://ex/data",
       PluginEvent.network "import-tree https://ex/vocab",
       PluginEvent.network "get https://ex/data",
       PluginEvent.network "get https://ex/vocab",
       PluginEvent.fileWrite "catalog-v001.xml",
       PluginEvent.raised "No axioms selected."] := by
  decide

/-- Claim C2 amended: a configuration with zero selected axiom generators is
rejected before any network or subprocess call by the `ReasonPlugin`
constructor (as one combined message); in the RobotReason variant the
rejection (`ValueError("No axioms selected.")`) is raised only during
execution — after the import-tree and graph-fetch network calls — though
still before any subprocess is started. -/
theorem c2_no_axiom_generators_rejected (validUrl : String → Bool)
    (cfg : ReasonConfig) (tree : String → List (List String))
    (d o ri : String) (a : AxiomFlags)
    (hcfg : true ∉ cfg.axioms.values) (ha : true ∉ a.values) :
    isAccepted (reason_plugin_init validUrl cfg) = false ∧
    PluginEvent.subprocess ∉ robot_execute_events tree d o ri a ∧
    PluginEvent.raised "No axioms selected." ∈ robot_execute_events tree d o ri a := by
  have herr : reasonInitErrors validUrl cfg ≠ "" := by
    intro hempty
    rw [reasonInitErrors, reasonInitErrorsBeforeRam] at hempty
    simp [string_append_eq_empty, hcfg] at hempty
  obtain ⟨b1, b2, b3, b4, b5, b6, b7, b8, b9, b10, b11, b12, b13, b14⟩ := a
  simp only [AxiomFlags.values] at ha
  simp at ha
  obtain ⟨h1, h2, h3, h4, h5, h6, h7, h8, h9, h10, h11, h12, h13, h14⟩ := ha
  have hax : robot_set_axioms
      ⟨b1, b2, b3, b4, b5, b6, b7, b8, b9, b10, b11, b12, b13, b14⟩ =
      .error "No axioms selected." := by
    subst h1 h2 h3 h4 h5 h6 h7 h8 h9 h10 h11 h12 h13 h14
    rfl
  refine ⟨?_, ?_, ?_⟩
  · rw [reason_plugin_init, if_pos herr]
    rfl
  · simp only [robot_execute_events, hax]
    simp only [List.mem_append, List.mem_map, List.mem_singleton, List.mem_cons,
      List.not_mem_nil]
    rintro (⟨h | h⟩ | ⟨p, _, h⟩ | h | h) <;> simp_all
  · simp only [robot_execute_events, hax]
    simp [List.mem_append]

/-- Witness for `c2_no_axiom_generators_rejected` at a concrete
configuration with zero selected generators. -/
theorem c2_no_axiom_generators_rejected_witness :
    isAccepted (reason_plugin_init (fun _ => true)
      { exampleReasonConfig with axioms := noAxiomFlags }) = false ∧
    PluginEvent.subprocess ∉ robot_execute_events (fun _ => [])
      "https://ex/data" "https://ex/vocab" "https://ex/result" noAxiomFlags ∧
    PluginEvent.raised "No axioms selected." ∈ robot_execute_events (fun _ => [])
      "https://ex/data" "https://ex/vocab" "https://ex/result" noAxiomFlags :=
  c2_no_axiom_generators_rejected (fun _ => true)
    { exampleReasonConfig with axioms := noAxiomFlags } (fun _ => [])
    "https://ex/data" "https://ex/vocab" "https://ex/result" noAxiomFlags
    (by decide) (by decide)

/-! ## Line decomposition lemmas for the staged files -/

theorem splitNl_ne_nil (l : List Char) : splitNl l ≠ [] := by
  induction l with
  | nil => simp [splitNl]
  | cons c rest ih =>
    rw [splitNl]
    by_cases hc : c = '\n'
    · simp [hc]
    · simp only [if_neg hc]
      cases h : splitNl rest with
      | nil => simp
      | cons l ls => simp

theorem splitNl_append_nl (a b : List Char) :
    splitNl (a ++ '\n' :: b) = splitNl a ++ splitNl b := by
  induction a with
  | nil => simp [splitNl]
  | cons c rest ih =>
    by_cases hc : c = '\n'
    · simp [splitNl, hc, ih]
    · rw [List.cons_append, splitNl, if_neg hc, ih]
      rw [splitNl, if_neg hc]
      cases h : splitNl rest with
      | nil => exact absurd h (splitNl_ne_nil rest)
      | cons l ls => simp

theorem splitNl_eq_single {l : List Char} (h : '\n' ∉ l) : splitNl l = [l] := by
  induction l with
  | nil => rfl
  | cons c rest ih =>
    simp only [List.mem_cons, not_or] at h
    rw [splitNl, if_neg (fun hc => h.1 hc.symm), ih h.2]

theorem splitNl_lines_flatten {ls : List (List Char)} {t : List Char}
    (h : ∀ l ∈ ls, '\n' ∉ l) :
    splitNl ((ls.map (fun l => l ++ ['\n'])).flatten ++ t) = ls ++ splitNl t := by
  induction ls with
  | nil => simp
  | cons l rest ih =>
    have : ((l :: rest).map (fun l => l ++ ['\n'])).flatten ++ t =
        l ++ '\n' :: ((rest.map (fun l => l ++ ['\n'])).flatten ++ t) := by
      simp
    rw [this, splitNl_append_nl, splitNl_eq_single (h l (by simp)),
      ih (fun x hx => h x (by simp [hx]))]
    simp

theorem importStatement_no_newline {a b : String}
    (ha : '\n' ∉ a.data) (hb : '\n' ∉ b.data) :
    '\n' ∉ importStatement a b := by
  simp only [importStatement, List.mem_append]
  rintro ((((h | h) | h) | h) | h)
  · revert h; decide
  · exact ha h
  · revert h; decide
  · exact hb h
  · revert h; decide

/-- Claim C3: after materialization, the staged file of the data graph is the
processed fetched content followed by exactly one synthetic import triple
`<data_graph> owl:imports <ontology_graph> .` — the triple is appended
unconditionally and exactly once per run, whatever the fetched content
already contains, in both plugin variants.  In the robot variant the fetched
text is staged verbatim plus newline and triple; in the reason variant the
fetched lines (minus any import of the output graph) are each staged with a
trailing newline and the triple is appended.  Line-level occurrence counts
make "appended once, not cumulatively" exact: the staged file holds exactly
one more occurrence of the triple than the (processed) fetched content. -/
theorem c3_synthetic_import_appended_once
    (fetched : List Char) (fetchedLines : List (List Char))
    (data_g ont_g out_g : String)
    (hd : '\n' ∉ data_g.data) (ho : '\n' ∉ ont_g.data)
    (hl : ∀ l ∈ fetchedLines, '\n' ∉ l) :
    splitNl (robot_staged_data fetched data_g data_g ont_g) =
      splitNl fetched ++ [importStatement data_g ont_g] ∧
    (splitNl (robot_staged_data fetched data_g data_g ont_g)).count
        (importStatement data_g ont_g) =
      (splitNl fetched).count (importStatement data_g ont_g) + 1 ∧
    splitNl (reason_staged_data fetchedLines data_g data_g ont_g out_g) =
      (fetchedLines.filter (fun l => l ≠ importStatement data_g out_g)) ++
        [importStatement data_g ont_g] ∧
    (splitNl (reason_staged_data fetchedLines data_g data_g ont_g out_g)).count
        (importStatement data_g ont_g) =
      (fetchedLines.filter (fun l => l ≠ importStatement data_g out_g)).count
        (importStatement data_g ont_g) + 1 := by
  have hstmt : '\n' ∉ importStatement data_g ont_g :=
    importStatement_no_newline hd ho
  have hrobot : splitNl (robot_staged_data fetched data_g data_g ont_g) =
      splitNl fetched ++ [importStatement data_g ont_g] := by
    rw [robot_staged_data, if_pos rfl, splitNl_append_nl,
      splitNl_eq_single hstmt]
  have hreason : splitNl (reason_staged_data fetchedLines data_g data_g ont_g out_g) =
      (fetchedLines.filter (fun l => l ≠ importStatement data_g out_g)) ++
        [importStatement data_g ont_g] := by
    rw [reason_staged_data, if_pos rfl,
      splitNl_lines_flatten (fun l hlmem => hl l (List.mem_of_mem_filter hlmem)),
      splitNl_eq_single hstmt]
  refine ⟨hrobot, ?_, hreason, ?_⟩
  · rw [hrobot, List.count_append]
    simp
  · rw [hreason, List.count_append]
    simp

/-- Witness for `c3_synthetic_import_appended_once` at concrete content. -/
theorem c3_synthetic_import_appended_once_witness :
    splitNl (robot_staged_data ['x'] "a" "a" "b") =
      splitNl ['x'] ++ [importStatement "a" "b"] ∧
    (splitNl (robot_staged_data ['x'] "a" "a" "b")).count (importStatement "a" "b") =
      (splitNl ['x']).count (importStatement "a" "b") + 1 ∧
    splitNl (reason_staged_data [['x']] "a" "a" "b" "c") =
      ([['x']].filter (fun l => l ≠ importStatement "a" "c")) ++
        [importStatement "a" "b"] ∧
    (splitNl (reason_staged_data [['x']] "a" "a" "b" "c")).count
        (importStatement "a" "b") =
      ([['x']].filter (fun l => l ≠ importStatement "a" "c")).count
        (importStatement "a" "b") + 1 :=
  c3_synthetic_import_appended_once ['x'] [['x']] "a" "b" "c"
    (by decide) (by decide) (by decide)

/-! ## Shape of the slug filenames (claim C10) -/

/-- A lowercase ASCII word character (lowercase letter, digit, underscore) or
hyphen: the only characters that may appear in the body of a slug filename. -/
def isAllowedChar (c : Char) : Bool :=
  (97 ≤ c.toNat && c.toNat ≤ 122) || (48 ≤ c.toNat && c.toNat ≤ 57) ||
    c == '_' || c == '-'

theorem mem_collapseDashSpace {c : Char} {b : Bool} {l : List Char}
    (h : c ∈ collapseDashSpace b l) :
    c = '-' ∨ (c ∈ l ∧ isDashSpace c = false) := by
  induction l generalizing b with
  | nil => simp [collapseDashSpace] at h
  | cons d rest ih =>
    rw [collapseDashSpace] at h
    by_cases hd : isDashSpace d
    · rw [if_pos hd] at h
      cases b with
      | true =>
        rcases ih h with h' | h'
        · exact Or.inl h'
        · exact Or.inr ⟨List.mem_cons_of_mem d h'.1, h'.2⟩
      | false =>
        rcases List.mem_cons.mp h with h' | h'
        · exact Or.inl h'
        · rcases ih h' with h'' | h''
          · exact Or.inl h''
          · exact Or.inr ⟨List.mem_cons_of_mem d h''.1, h''.2⟩
    · rw [if_neg hd] at h
      rcases List.mem_cons.mp h with h' | h'
      · subst h'
        exact Or.inr ⟨List.mem_cons_self c rest, by simpa using hd⟩
      · rcases ih h' with h'' | h''
        · exact Or.inl h''
        · exact Or.inr ⟨List.mem_cons_of_mem d h''.1, h''.2⟩

theorem mem_pyStripDashUnderscore {c : Char} {l : List Char}
    (h : c ∈ pyStripDashUnderscore l) : c ∈ l := by
  rw [pyStripDashUnderscore] at h
  rw [List.mem_reverse] at h
  have h1 := (List.dropWhile_sublist isStripChar).subset h
  rw [List.mem_reverse] at h1
  exact (List.dropWhile_sublist isStripChar).subset h1

theorem pyLowerChar_not_upper (c : Char)
    (h : 65 ≤ (pyLowerChar c).toNat ∧ (pyLowerChar c).toNat ≤ 90) : False := by
  rw [pyLowerChar] at h
  by_cases hc : 65 ≤ c.toNat ∧ c.toNat ≤ 90
  · rw [if_pos hc, charOfNat_toNat (by omega)] at h
    omega
  · rw [if_neg hc] at h
    exact hc h

theorem convertCore_chars_allowed {l : List Char} {c : Char}
    (hc : c ∈ convertCore l) : isAllowedChar c = true := by
  simp only [convertCore] at hc
  have h1 := mem_collapseDashSpace (mem_pyStripDashUnderscore hc)
  rcases h1 with rfl | ⟨h2, h3⟩
  · decide
  · rw [List.mem_filter] at h2
    obtain ⟨h4, h5⟩ := h2
    rw [List.mem_map] at h4
    obtain ⟨d, _, rfl⟩ := h4
    rw [isDashSpace, Bool.or_eq_false_iff] at h3
    rw [Bool.or_eq_true, Bool.or_eq_true] at h5
    rcases h5 with (hw | hs) | hdash
    · rw [isPyWordAscii, Bool.or_eq_true, Bool.or_eq_true] at hw
      rcases hw with (ha | hd') | hu
      · rw [Char.isAlpha, Bool.or_eq_true] at ha
        rcases ha with hup | hlo
        · exfalso
          apply pyLowerChar_not_upper d
          simp [Char.isUpper] at hup
          exact ⟨hup.1, hup.2⟩
        · simp [Char.isLower] at hlo
          have h1 : 97 ≤ (pyLowerChar d).toNat := hlo.1
          have h2 : (pyLowerChar d).toNat ≤ 122 := hlo.2
          have hb : (97 ≤ (pyLowerChar d).toNat && (pyLowerChar d).toNat ≤ 122) = true := by
            simp
            omega
          simp [isAllowedChar, hb]
      · simp [Char.isDigit] at hd'
        have h1 : 48 ≤ (pyLowerChar d).toNat := hd'.1
        have h2 : (pyLowerChar d).toNat ≤ 57 := hd'.2
        have hb : (48 ≤ (pyLowerChar d).toNat && (pyLowerChar d).toNat ≤ 57) = true := by
          simp
          omega
        simp [isAllowedChar, hb]
      · simp [isAllowedChar, hu]
    · rw [hs] at h3
      simp at h3
    · rw [hdash] at h3
      simp at h3

/-- Claim C10: `convert_iri_to_filename` is total and always returns a single
path component: a (possibly empty) body of lowercase ASCII word characters
(`a`-`z`, `0`-`9`, `_`) and hyphens followed by the suffix `.nt`, with no
slash, no dot outside the suffix and no whitespace anywhere — so every staged
file path stays inside the workspace directory whatever the identifier
contains.  (The NFKD normalization step is modelled as the identity followed
by the ASCII filter; the statement quantifies over every input of the rest of
the pipeline, which determines the output shape.) -/
theorem c10_convert_iri_to_filename_shape (s : String) :
    (convert_iri_to_filename s).data = convertCore s.data ++ ['.', 'n', 't'] ∧
    (convertCore s.data).all isAllowedChar = true ∧
    '/' ∉ (convert_iri_to_filename s).data ∧
    ' ' ∉ (convert_iri_to_filename s).data ∧
    '\n' ∉ (convert_iri_to_filename s).data ∧
    '.' ∉ convertCore s.data := by
  refine ⟨rfl, List.all_eq_true.mpr (fun c hc => convertCore_chars_allowed hc), ?_, ?_, ?_, ?_⟩
  · intro hmem
    rcases List.mem_append.mp hmem with h | h
    · have := convertCore_chars_allowed h
      simp [isAllowedChar] at this
    · simp at h
  · intro hmem
    rcases List.mem_append.mp hmem with h | h
    · have := convertCore_chars_allowed h
      simp [isAllowedChar] at this
    · simp at h
  · intro hmem
    rcases List.mem_append.mp hmem with h | h
    · have := convertCore_chars_allowed h
      simp [isAllowedChar] at this
    · simp at h
  · intro hmem
    have := convertCore_chars_allowed hmem
    simp [isAllowedChar] at this

/-- Witness for `c10_convert_iri_to_filename_shape` at a concrete
identifier. -/
theorem c10_convert_iri_to_filename_shape_witness :
    (convert_iri_to_filename "https://ex/Data.Graph/").data =
      convertCore "https://ex/Data.Graph/".data ++ ['.', 'n', 't'] ∧
    (convertCore "https://ex/Data.Graph/".data).all isAllowedChar = true ∧
    '/' ∉ (convert_iri_to_filename "https://ex/Data.Graph/").data ∧
    ' ' ∉ (convert_iri_to_filename "https://ex/Data.Graph/").data ∧
    '\n' ∉ (convert_iri_to_filename "https://ex/Data.Graph/").data ∧
    '.' ∉ convertCore "https://ex/Data.Graph/".data :=
  c10_convert_iri_to_filename_shape "https://ex/Data.Graph/"

/-- Witness for `c5_validate_profiles_shape` at a concrete stdout function
(one on which Full and EL succeed and the rest fail). -/
theorem c5_validate_profiles_shape_witness :
    validate_profiles
        (fun p => if p = "Full" ∨ p = "EL" then profileMarker else "no") =
      (if ((fun p => if p = "Full" ∨ p = "EL" then profileMarker else "no")
            "Full").endsWith profileMarker then
        owlProfiles.filter (fun p =>
          ((fun p => if p = "Full" ∨ p = "EL" then profileMarker else "no")
            p).endsWith profileMarker)
      else []) ∧
    validate_profiles_checked
        (fun p => if p = "Full" ∨ p = "EL" then profileMarker else "no") =
      (if ((fun p => if p = "Full" ∨ p = "EL" then profileMarker else "no")
            "Full").endsWith profileMarker then owlProfiles
      else ["Full"]) :=
  c5_validate_profiles_shape
    (fun p => if p = "Full" ∨ p = "EL" then profileMarker else "no")

/-! ## Timestamp format lemmas -/

theorem natStr_digits (n : Nat) : ∀ c ∈ natStr n, 48 ≤ c.toNat ∧ c.toNat ≤ 57 := by
  induction n using Nat.strong_induction_on with
  | _ n ih =>
    rw [natStr]
    split
    · intro c hc
      simp only [List.mem_singleton] at hc
      subst hc
      rw [digitChar, charOfNat_toNat (by omega)]
      omega
    · intro c hc
      rcases List.mem_append.mp hc with h | h
      · exact ih (n / 10) (Nat.div_lt_self (by omega) (by omega)) c h
      · simp only [List.mem_singleton] at h
        subst h
        rw [digitChar, charOfNat_toNat (by omega)]
        have := Nat.mod_lt n (show 0 < 10 by omega)
        omega

theorem pad2_digits (n : Nat) : ∀ c ∈ pad2 n, 48 ≤ c.toNat ∧ c.toNat ≤ 57 := by
  intro c hc
  rw [pad2] at hc
  rcases List.mem_append.mp hc with h | h
  · split at h <;> simp at h
    subst h
    decide
  · exact natStr_digits n c h

theorem pad4_digits (n : Nat) : ∀ c ∈ pad4 n, 48 ≤ c.toNat ∧ c.toNat ≤ 57 := by
  intro c hc
  rw [pad4] at hc
  rcases List.mem_append.mp hc with h | h
  · split at h
    · simp at h
      rcases h with rfl | rfl | rfl <;> decide
    · split at h
      · simp at h
        rcases h with rfl | rfl <;> decide
      · split at h <;> simp at h
        subst h
        decide
  · exact natStr_digits n c h

theorem map_spaceT_of_digits {l : List Char}
    (h : ∀ c ∈ l, 48 ≤ c.toNat ∧ c.toNat ≤ 57) :
    l.map (fun c => if c = ' ' then 'T' else c) = l := by
  induction l with
  | nil => rfl
  | cons c rest ih =>
    have hc := h c (List.mem_cons_self c rest)
    have : c ≠ ' ' := by
      intro he
      subst he
      revert hc
      decide
    simp only [List.map_cons, if_neg this]
    rw [ih (fun x hx => h x (List.mem_cons_of_mem c hx))]

/-- The generated timestamp has the exact shape
`YYYY-MM-DDTHH:MM:SSZ` (zero-padded decimal fields, `T` separator, trailing
`Z`): the slice `[:-6]` removes precisely the `+00:00` timezone suffix and
the replacement turns the single space separator into `T`. -/
theorem utcStamp_format (y mo d h mi s : Nat) :
    utcStamp y mo d h mi s =
      pad4 y ++ '-' :: pad2 mo ++ '-' :: pad2 d ++ 'T' :: pad2 h ++ ':' :: pad2 mi
        ++ ':' :: pad2 s ++ ['Z'] := by
  have hsplit : pyDatetimeStr y mo d h mi s =
      (pad4 y ++ '-' :: pad2 mo ++ '-' :: pad2 d ++ ' ' :: pad2 h ++ ':' :: pad2 mi
        ++ ':' :: pad2 s) ++ "+00:00".data := by
    simp [pyDatetimeStr, List.append_assoc]
  have hlen : (pyDatetimeStr y mo d h mi s).length - 6 =
      (pad4 y ++ '-' :: pad2 mo ++ '-' :: pad2 d ++ ' ' :: pad2 h ++ ':' :: pad2 mi
        ++ ':' :: pad2 s).length := by
    rw [hsplit, List.length_append]
    simp
  rw [utcStamp, hsplit, ← hsplit, hlen, hsplit, List.take_left]
  simp only [List.map_append, List.map_cons, map_spaceT_of_digits (pad4_digits y),
    map_spaceT_of_digits (pad2_digits mo), map_spaceT_of_digits (pad2_digits d),
    map_spaceT_of_digits (pad2_digits h), map_spaceT_of_digits (pad2_digits mi),
    map_spaceT_of_digits (pad2_digits s)]
  simp [List.append_assoc]

/-- Counterexample to claim C9: the annotate command generated by the
RobotReason variant contains no `dc:source` link annotation at all (it uses
`prov:wasDerivedFrom` instead), so the claim that both plugin variants attach
`dc:source` link annotations fails — here checked on a concrete command. -/
theorem c9_robot_cmd_lacks_dc_source :
    hasSegment "dc:source".data
      (robot_cmd "robot" "tmp" "data.nt" "elk" "SubClass" "2024-01-01T00:00:00Z"
        "https://ex/data" "https://ex/vocab" "https://ex/result").data = false := by
  set_option maxRecDepth 10000 in decide

/-- Introduce a segment occurrence from a string-level decomposition. -/
theorem segIn_of_eq {pat s : String} (pre post : String)
    (h : s = pre ++ pat ++ post) : SegIn pat s :=
  ⟨pre.data, post.data, by rw [h, String.data_append, String.data_append]⟩

/-- Claim C9 amended: every generated annotate command attaches
`rdfs:label "Eccenca Reasoning Result <ts>" en` where `<ts>` is the current
UTC time truncated to whole seconds in the exact shape
`YYYY-MM-DDTHH:MM:SSZ`; provenance links to both the data graph IRI and the
ontology graph IRI are attached via `dc:source` in the `cmem_plugin_reason`
variant but via `prov:wasDerivedFrom` in the RobotReason variant. -/
theorem c9_annotate_command_annotations
    (robotPath temp dataFile reasoner axioms utctime data_iri ont_iri out_iri
      result_iri : String) (y mo d h mi s : Nat) :
    SegIn ("--language-annotation rdfs:label \"Eccenca Reasoning Result " ++
        utctime ++ "\" en ")
      (reason_cmd temp dataFile reasoner axioms utctime data_iri ont_iri out_iri) ∧
    SegIn ("--link-annotation dc:source \"" ++ data_iri ++ "\" ")
      (reason_cmd temp dataFile reasoner axioms utctime data_iri ont_iri out_iri) ∧
    SegIn ("--link-annotation dc:source \"" ++ ont_iri ++ "\" ")
      (reason_cmd temp dataFile reasoner axioms utctime data_iri ont_iri out_iri) ∧
    SegIn ("--language-annotation rdfs:label \"Eccenca Reasoning Result " ++
        utctime ++ "\" en ")
      (robot_cmd robotPath temp dataFile reasoner axioms utctime data_iri ont_iri
        result_iri) ∧
    SegIn ("--link-annotation prov:wasDerivedFrom \"" ++ data_iri ++ "\" ")
      (robot_cmd robotPath temp dataFile reasoner axioms utctime data_iri ont_iri
        result_iri) ∧
    SegIn ("--link-annotation prov:wasDerivedFrom \"" ++ ont_iri ++ "\" ")
      (robot_cmd robotPath temp dataFile reasoner axioms utctime data_iri ont_iri
        result_iri) ∧
    utcStamp y mo d h mi s =
      pad4 y ++ '-' :: pad2 mo ++ '-' :: pad2 d ++ 'T' :: pad2 h ++ ':' :: pad2 mi
        ++ ':' :: pad2 s ++ ['Z'] := by
  refine ⟨?_, ?_, ?_, ?_, ?_, ?_, utcStamp_format y mo d h mi s⟩
  · refine segIn_of_eq ("reason --input \"" ++ temp ++ "/" ++ dataFile ++ "\" " ++
      "--reasoner " ++ reasoner ++ " " ++ "--axiom-generators \"" ++ axioms ++
      "\" " ++ "--include-indirect true " ++ "--exclude-duplicate-axioms true " ++
      "--exclude-owl-thing true " ++ "--exclude-tautologies all " ++
      "--exclude-external-entities " ++ "reduce --reasoner " ++ reasoner ++ " " ++
      "unmerge --input \"" ++ temp ++ "/" ++ dataFile ++ "\" " ++
      "annotate --ontology-iri \"" ++ out_iri ++ "\" " ++
      "--remove-annotations ")
      ("--language-annotation rdfs:comment \"Reasoning result set of <" ++
        data_iri ++ "> and <" ++ ont_iri ++ ">\" en " ++
      "--link-annotation dc:source \"" ++ data_iri ++ "\" " ++
      "--link-annotation dc:source \"" ++ ont_iri ++ "\" " ++
      "--typed-annotation dc:created \"" ++ utctime ++ "\" xsd:dateTime " ++
      "--output \"" ++ temp ++ "/result.ttl\"") ?_
    simp only [reason_cmd, String.append_assoc]
  · refine segIn_of_eq ("reason --input \"" ++ temp ++ "/" ++ dataFile ++ "\" " ++
      "--reasoner " ++ reasoner ++ " " ++ "--axiom-generators \"" ++ axioms ++
      "\" " ++ "--include-indirect true " ++ "--exclude-duplicate-axioms true " ++
      "--exclude-owl-thing true " ++ "--exclude-tautologies all " ++
      "--exclude-external-entities " ++ "reduce --reasoner " ++ reasoner ++ " " ++
      "unmerge --input \"" ++ temp ++ "/" ++ dataFile ++ "\" " ++
      "annotate --ontology-iri \"" ++ out_iri ++ "\" " ++
      "--remove-annotations " ++
      "--language-annotation rdfs:label \"Eccenca Reasoning Result " ++ utctime ++
      "\" en " ++
      "--language-annotation rdfs:comment \"Reasoning result set of <" ++
        data_iri ++ "> and <" ++ ont_iri ++ ">\" en ")
      ("--link-annotation dc:source \"" ++ ont_iri ++ "\" " ++
      "--typed-annotation dc:created \"" ++ utctime ++ "\" xsd:dateTime " ++
      "--output \"" ++ temp ++ "/result.ttl\"") ?_
    simp only [reason_cmd, String.append_assoc]
  · refine segIn_of_eq ("reason --input \"" ++ temp ++ "/" ++ dataFile ++ "\" " ++
      "--reasoner " ++ reasoner ++ " " ++ "--axiom-generators \"" ++ axioms ++
      "\" " ++ "--include-indirect true " ++ "--exclude-duplicate-axioms true " ++
      "--exclude-owl-thing true " ++ "--exclude-tautologies all " ++
      "--exclude-external-entities " ++ "reduce --reasoner " ++ reasoner ++ " " ++
      "unmerge --input \"" ++ temp ++ "/" ++ dataFile ++ "\" " ++
      "annotate --ontology-iri \"" ++ out_iri ++ "\" " ++
      "--remove-annotations " ++
      "--language-annotation rdfs:label \"Eccenca Reasoning Result " ++ utctime ++
      "\" en " ++
      "--language-annotation rdfs:comment \"Reasoning result set of <" ++
        data_iri ++ "> and <" ++ ont_iri ++ ">\" en " ++
      "--link-annotation dc:source \"" ++ data_iri ++ "\" ")
      ("--typed-annotation dc:created \"" ++ utctime ++ "\" xsd:dateTime " ++
      "--output \"" ++ temp ++ "/result.ttl\"") ?_
    simp only [reason_cmd, String.append_assoc]
  · refine segIn_of_eq (robotPath ++ " merge --input \"" ++ temp ++ "/" ++
      dataFile ++ "\" --collapse-import-closure false " ++
      "reason --reasoner " ++ reasoner ++ " " ++ "--axiom-generators \"" ++
      axioms ++ "\" " ++ "--include-indirect true " ++
      "--exclude-duplicate-axioms true " ++ "--exclude-owl-thing true " ++
      "--exclude-tautologies all " ++ "--exclude-external-entities " ++
      "reduce --reasoner " ++ reasoner ++ " " ++
      "unmerge --input \"" ++ temp ++ "/" ++ dataFile ++ "\" " ++
      "annotate --ontology-iri \"" ++ result_iri ++ "\" " ++
      "--remove-annotations ")
      ("--language-annotation rdfs:comment \"Reasoning result set of <" ++
        data_iri ++ "> and <" ++ ont_iri ++ ">\" en " ++
      "--language-annotation prov:wasGeneratedBy \"cmem-plugin-robotreason (" ++
        reasoner ++ ")\" en " ++
      "--link-annotation prov:wasDerivedFrom \"" ++ data_iri ++ "\" " ++
      "--link-annotation prov:wasDerivedFrom \"" ++ ont_iri ++ "\" " ++
      "--typed-annotation dc:created \"" ++ utctime ++ "\" xsd:dateTime " ++
      "--output \"" ++ temp ++ "/result.ttl\"") ?_
    simp only [robot_cmd, String.append_assoc]
  · refine segIn_of_eq (robotPath ++ " merge --input \"" ++ temp ++ "/" ++
      dataFile ++ "\" --collapse-import-closure false " ++
      "reason --reasoner " ++ reasoner ++ " " ++ "--axiom-generators \"" ++
      axioms ++ "\" " ++ "--include-indirect true " ++
      "--exclude-duplicate-axioms true " ++ "--exclude-owl-thing true " ++
      "--exclude-tautologies all " ++ "--exclude-external-entities " ++
      "reduce --reasoner " ++ reasoner ++ " " ++
      "unmerge --input \"" ++ temp ++ "/" ++ dataFile ++ "\" " ++
      "annotate --ontology-iri \"" ++ result_iri ++ "\" " ++
      "--remove-annotations " ++
      "--language-annotation rdfs:label \"Eccenca Reasoning Result " ++ utctime ++
      "\" en " ++
      "--language-annotation rdfs:comment \"Reasoning result set of <" ++
        data_iri ++ "> and <" ++ ont_iri ++ ">\" en " ++
      "--language-annotation prov:wasGeneratedBy \"cmem-plugin-robotreason (" ++
        reasoner ++ ")\" en ")
      ("--link-annotation prov:wasDerivedFrom \"" ++ ont_iri ++ "\" " ++
      "--typed-annotation dc:created \"" ++ utctime ++ "\" xsd:dateTime " ++
      "--output \"" ++ temp ++ "/result.ttl\"") ?_
    simp only [robot_cmd, String.append_assoc]
  · refine segIn_of_eq (robotPath ++ " merge --input \"" ++ temp ++ "/" ++
      dataFile ++ "\" --collapse-import-closure false " ++
      "reason --reasoner " ++ reasoner ++ " " ++ "--axiom-generators \"" ++
      axioms ++ "\" " ++ "--include-indirect true " ++
      "--exclude-duplicate-axioms true " ++ "--exclude-owl-thing true " ++
      "--exclude-tautologies all " ++ "--exclude-external-entities " ++
      "reduce --reasoner " ++ reasoner ++ " " ++
      "unmerge --input \"" ++ temp ++ "/" ++ dataFile ++ "\" " ++
      "annotate --ontology-iri \"" ++ result_iri ++ "\" " ++
      "--remove-annotations " ++
      "--language-annotation rdfs:label \"Eccenca Reasoning Result " ++ utctime ++
      "\" en " ++
      "--language-annotation rdfs:comment \"Reasoning result set of <" ++
        data_iri ++ "> and <" ++ ont_iri ++ ">\" en " ++
      "--language-annotation prov:wasGeneratedBy \"cmem-plugin-robotreason (" ++
        reasoner ++ ")\" en " ++
      "--link-annotation prov:wasDerivedFrom \"" ++ data_iri ++ "\" ")
      ("--typed-annotation dc:created \"" ++ utctime ++ "\" xsd:dateTime " ++
      "--output \"" ++ temp ++ "/result.ttl\"") ?_
    simp only [robot_cmd, String.append_assoc]

/-! ## Import-closure walk lemmas (claims C7) -/

theorem dictContains_iff {g : List (String × String)} {k : String} :
    dictContains g k = true ↔ k ∈ dictKeys g := by
  simp only [dictContains, dictKeys, List.any_eq_true, List.mem_map, beq_iff_eq]

theorem insStep_fold_keys_mono (e : String → Bool) (nm : Nat → String → String)
    (l : List String) (st : List (String × String) × Nat) {k : String}
    (h : k ∈ dictKeys st.1) : k ∈ dictKeys ((l.foldl (insStep e nm) st).1) := by
  induction l generalizing st with
  | nil => exact h
  | cons x xs ih =>
    apply ih
    rw [insStep]
    split
    · exact h
    · simp only [dictKeys, List.map_append]
      exact List.mem_append_left _ h

theorem insStep_fold_keys_adds (e : String → Bool) (nm : Nat → String → String)
    (l : List String) (st : List (String × String) × Nat) {x : String}
    (hx : x ∈ l) (he : e x = false) :
    x ∈ dictKeys ((l.foldl (insStep e nm) st).1) := by
  induction l generalizing st with
  | nil => simp at hx
  | cons y ys ih =>
    rcases List.mem_cons.mp hx with rfl | hmem
    · rw [List.foldl_cons]
      apply insStep_fold_keys_mono
      simp only [insStep]
      by_cases hc : (dictContains st.1 x || e x) = true
      · rw [if_pos hc]
        have hc' : dictContains st.1 x = true := by
          rw [Bool.or_eq_true] at hc
          rcases hc with h' | h'
          · exact h'
          · rw [he] at h'
            cases h'
        exact dictContains_iff.mp hc'
      · rw [if_neg hc]
        simp [dictKeys]
    · exact ih _ hmem

theorem insStep_fold_keys_subset (e : String → Bool) (nm : Nat → String → String)
    (l : List String) (st : List (String × String) × Nat) {k : String}
    (h : k ∈ dictKeys ((l.foldl (insStep e nm) st).1)) :
    k ∈ dictKeys st.1 ∨ k ∈ l := by
  induction l generalizing st with
  | nil => exact Or.inl h
  | cons x xs ih =>
    rcases ih _ h with h' | h'
    · rw [insStep] at h'
      split at h'
      · exact Or.inl h'
      · simp only [dictKeys, List.map_append, List.map_cons, List.map_nil,
          List.mem_append, List.mem_singleton] at h'
        rcases h' with h' | h'
        · exact Or.inl h'
        · exact Or.inr (by simp [h'])
    · exact Or.inr (List.mem_cons_of_mem x h')

theorem insStep_fold_keys_nodup (e : String → Bool) (nm : Nat → String → String)
    (l : List String) (st : List (String × String) × Nat)
    (h : (dictKeys st.1).Nodup) : (dictKeys ((l.foldl (insStep e nm) st).1)).Nodup := by
  induction l generalizing st with
  | nil => exact h
  | cons x xs ih =>
    apply ih
    rw [insStep]
    split
    · exact h
    · rename_i hcond
      have hx : x ∉ dictKeys st.1 := by
        intro hmem
        rw [← dictContains_iff] at hmem
        simp [hmem] at hcond
      simp only [dictKeys, List.map_append, List.map_cons, List.map_nil]
      rw [List.nodup_append]
      refine ⟨h, by simp, ?_⟩
      intro a ha hax
      simp only [List.mem_singleton] at hax
      subst hax
      exact hx ha

theorem addRoot_keys_mono (tree : String → List (List String))
    (excl : String → String → Bool) (nm : Nat → String → String)
    (st : List (String × String) × Nat) (root : String) {k : String}
    (h : k ∈ dictKeys st.1) : k ∈ dictKeys (addRoot tree excl nm st root).1 := by
  rw [addRoot]
  split
  · exact h
  · apply insStep_fold_keys_mono
    simp only [dictKeys, List.map_append]
    exact List.mem_append_left _ h

theorem addRoot_root_mem (tree : String → List (List String))
    (excl : String → String → Bool) (nm : Nat → String → String)
    (st : List (String × String) × Nat) (root : String) :
    root ∈ dictKeys (addRoot tree excl nm st root).1 := by
  rw [addRoot]
  split
  · rename_i hc
    exact dictContains_iff.mp hc
  · apply insStep_fold_keys_mono
    simp [dictKeys]

theorem addRoot_keys_nodup (tree : String → List (List String))
    (excl : String → String → Bool) (nm : Nat → String → String)
    (st : List (String × String) × Nat) (root : String)
    (h : (dictKeys st.1).Nodup) : (dictKeys (addRoot tree excl nm st root).1).Nodup := by
  rw [addRoot]
  split
  · exact h
  · rename_i hc
    apply insStep_fold_keys_nodup
    simp only [dictKeys, List.map_append, List.map_cons, List.map_nil]
    rw [List.nodup_append]
    refine ⟨h, by simp, ?_⟩
    intro a ha hax
    simp only [List.mem_singleton] at hax
    subst hax
    exact hc (dictContains_iff.mpr ha)

theorem addRoot_keys_subset (tree : String → List (List String))
    (excl : String → String → Bool) (nm : Nat → String → String)
    (st : List (String × String) × Nat) (root : String) {k : String}
    (h : k ∈ dictKeys (addRoot tree excl nm st root).1) :
    k ∈ dictKeys st.1 ∨ k = root ∨ k ∈ (tree root).flatten := by
  rw [addRoot] at h
  split at h
  · exact Or.inl h
  · rcases insStep_fold_keys_subset _ _ _ _ h with h' | h'
    · simp only [dictKeys, List.map_append, List.map_cons, List.map_nil,
        List.mem_append, List.mem_singleton] at h'
      rcases h' with h' | h'
      · exact Or.inl h'
      · exact Or.inr (Or.inl h')
    · exact Or.inr (Or.inr h')

theorem addRoot_adds_imports (tree : String → List (List String))
    (excl : String → String → Bool) (nm : Nat → String → String)
    (st : List (String × String) × Nat) (root : String) {x : String}
    (hx : x ∈ (tree root).flatten) (he : excl root x = false)
    (hc : dictContains st.1 root = false) :
    x ∈ dictKeys (addRoot tree excl nm st root).1 := by
  rw [addRoot, if_neg (by simp [hc])]
  exact insStep_fold_keys_adds _ _ _ _ hx he

/-- Invariant of the outer walk: after processing `done` and then `rs`, every
key is a processed root or an import of one, every processed root is a key,
and every import of a processed root is a key.  `Htrans` captures that the
remote import-tree service reports transitively closed trees (the tree of a
root contains the imports of every graph occurring in it), which is what
makes the single-pass walk complete. -/
theorem closure_fold_inv (tree : String → List (List String))
    (excl : String → String → Bool) (nm : Nat → String → String)
    (Htrans : ∀ r x, x ∈ (tree r).flatten → ∀ y ∈ (tree x).flatten,
      y ∈ (tree r).flatten) :
    ∀ (rs : List String) (st : List (String × String) × Nat) (done : List String),
    (∀ r, (r ∈ done ∨ r ∈ rs) → ∀ x ∈ (tree r).flatten, excl r x = false) →
    (∀ k ∈ dictKeys st.1, k ∈ done ∨ ∃ r ∈ done, k ∈ (tree r).flatten) →
    (∀ r ∈ done, r ∈ dictKeys st.1 ∧
      ∀ x ∈ (tree r).flatten, x ∈ dictKeys st.1) →
    (∀ k ∈ dictKeys ((rs.foldl (addRoot tree excl nm) st).1),
      k ∈ done ++ rs ∨ ∃ r ∈ done ++ rs, k ∈ (tree r).flatten) ∧
    (∀ r ∈ done ++ rs, r ∈ dictKeys ((rs.foldl (addRoot tree excl nm) st).1) ∧
      ∀ x ∈ (tree r).flatten,
        x ∈ dictKeys ((rs.foldl (addRoot tree excl nm) st).1)) := by
  intro rs
  induction rs with
  | nil =>
    intro st done _ hI hJ
    rw [List.foldl_nil, List.append_nil]
    exact ⟨hI, hJ⟩
  | cons r rs ih =>
    intro st done hE hI hJ
    rw [List.foldl_cons]
    have hE' : ∀ r', (r' ∈ done ++ [r] ∨ r' ∈ rs) →
        ∀ x ∈ (tree r').flatten, excl r' x = false := by
      intro r' hr'
      apply hE
      rcases hr' with hr' | hr'
      · rcases List.mem_append.mp hr' with h' | h'
        · exact Or.inl h'
        · simp only [List.mem_singleton] at h'
          subst h'
          exact Or.inr (List.mem_cons_self _ _)
      · exact Or.inr (List.mem_cons_of_mem _ hr')
    have hI' : ∀ k ∈ dictKeys (addRoot tree excl nm st r).1,
        k ∈ done ++ [r] ∨ ∃ r₀ ∈ done ++ [r], k ∈ (tree r₀).flatten := by
      intro k hk
      rcases addRoot_keys_subset _ _ _ _ _ hk with h' | h' | h'
      · rcases hI k h' with h'' | ⟨r₀, hr₀, h''⟩
        · exact Or.inl (List.mem_append_left _ h'')
        · exact Or.inr ⟨r₀, List.mem_append_left _ hr₀, h''⟩
      · subst h'
        exact Or.inl (List.mem_append_right _ (by simp))
      · exact Or.inr ⟨r, List.mem_append_right _ (by simp), h'⟩
    have hJ' : ∀ r₀ ∈ done ++ [r], r₀ ∈ dictKeys (addRoot tree excl nm st r).1 ∧
        ∀ x ∈ (tree r₀).flatten, x ∈ dictKeys (addRoot tree excl nm st r).1 := by
      intro r₀ hr₀
      rcases List.mem_append.mp hr₀ with h' | h'
      · obtain ⟨hmem, himp⟩ := hJ r₀ h'
        exact ⟨addRoot_keys_mono _ _ _ _ _ hmem,
          fun x hx => addRoot_keys_mono _ _ _ _ _ (himp x hx)⟩
      · simp only [List.mem_singleton] at h'
        subst h'
        refine ⟨addRoot_root_mem _ _ _ _ _, ?_⟩
        intro x hx
        by_cases hc : dictContains st.1 r₀ = true
        · have hkeys : (addRoot tree excl nm st r₀).1 = st.1 := by
            rw [addRoot, if_pos hc]
          rw [hkeys]
          rcases hI r₀ (dictContains_iff.mp hc) with h'' | ⟨r₁, hr₁, h''⟩
          · exact (hJ r₀ h'').2 x hx
          · exact (hJ r₁ hr₁).2 x (Htrans r₁ r₀ h'' x hx)
        · exact addRoot_adds_imports _ _ _ _ _ hx
            (hE r₀ (Or.inr (List.mem_cons_self _ _)) x hx)
            (by simpa using hc)
    have hmain := ih (addRoot tree excl nm st r) (done ++ [r]) hE' hI' hJ'
    rw [List.append_cons]
    exact hmain

theorem foldl_addRoot_keys_nodup (tree : String → List (List String))
    (excl : String → String → Bool) (nm : Nat → String → String) :
    ∀ (rs : List String) (st : List (String × String) × Nat),
    (dictKeys st.1).Nodup →
    (dictKeys ((rs.foldl (addRoot tree excl nm) st).1)).Nodup := by
  intro rs
  induction rs with
  | nil => intro st h; exact h
  | cons r rs ih =>
    intro st h
    rw [List.foldl_cons]
    exact ih _ (addRoot_keys_nodup _ _ _ _ _ h)

theorem graphsClosure_keys_nodup (tree : String → List (List String))
    (excl : String → String → Bool) (nm : Nat → String → String)
    (roots : List String) :
    (dictKeys (graphsClosure tree excl nm roots)).Nodup :=
  foldl_addRoot_keys_nodup tree excl nm roots ([], 0) (by simp [dictKeys])

theorem graphsClosure_keys_iff (tree : String → List (List String))
    (excl : String → String → Bool) (nm : Nat → String → String)
    (roots : List String)
    (Htrans : ∀ r x, x ∈ (tree r).flatten → ∀ y ∈ (tree x).flatten,
      y ∈ (tree r).flatten)
    (Hexcl : ∀ r ∈ roots, ∀ x ∈ (tree r).flatten, excl r x = false) :
    ∀ k, k ∈ dictKeys (graphsClosure tree excl nm roots) ↔
      k ∈ roots ∨ ∃ r ∈ roots, k ∈ (tree r).flatten := by
  have h := closure_fold_inv tree excl nm Htrans roots ([], 0) []
    (fun r hr x hx => by
      rcases hr with h' | h'
      · simp at h'
      · exact Hexcl r h' x hx)
    (by intro k hk; simp [dictKeys] at hk)
    (by intro r hr; simp at hr)
  rw [graphsClosure]
  intro k
  constructor
  · intro hk
    exact h.1 k hk
  · intro hk
    rcases hk with hk | ⟨r, hr, hk⟩
    · exact (h.2 k hk).1
    · exact (h.2 r hr).2 k hk

theorem insStep_fold_values_token (tok : Nat → String) (e : String → Bool)
    (l : List String) (st : List (String × String) × Nat)
    (h : dictValues st.1 = (List.range st.2).map (fun n => tok n ++ ".nt")) :
    dictValues ((l.foldl (insStep e (tokenName tok)) st).1) =
      (List.range ((l.foldl (insStep e (tokenName tok)) st).2)).map
        (fun n => tok n ++ ".nt") := by
  induction l generalizing st with
  | nil => exact h
  | cons x xs ih =>
    rw [List.foldl_cons]
    apply ih
    rw [insStep]
    split
    · exact h
    · simp only [dictValues, List.map_append, List.map_cons, List.map_nil,
        List.range_succ, tokenName]
      rw [← dictValues, h]

theorem addRoot_values_token (tok : Nat → String)
    (tree : String → List (List String)) (excl : String → String → Bool)
    (st : List (String × String) × Nat) (root : String)
    (h : dictValues st.1 = (List.range st.2).map (fun n => tok n ++ ".nt")) :
    dictValues ((addRoot tree excl (tokenName tok) st root).1) =
      (List.range ((addRoot tree excl (tokenName tok) st root).2)).map
        (fun n => tok n ++ ".nt") := by
  rw [addRoot]
  split
  · exact h
  · apply insStep_fold_values_token
    simp only [dictValues, List.map_append, List.map_cons, List.map_nil,
      List.range_succ, tokenName]
    rw [← dictValues, h]

theorem graphsClosure_values_token (tok : Nat → String)
    (tree : String → List (List String)) (excl : String → String → Bool)
    (roots : List String)
    (Hinj : Function.Injective (fun n : Nat => tok n ++ ".nt")) :
    (dictValues (graphsClosure tree excl (tokenName tok) roots)).Nodup := by
  have key : ∀ (rs : List String) (st : List (String × String) × Nat),
      dictValues st.1 = (List.range st.2).map (fun n => tok n ++ ".nt") →
      dictValues ((rs.foldl (addRoot tree excl (tokenName tok)) st).1) =
        (List.range ((rs.foldl (addRoot tree excl (tokenName tok)) st).2)).map
          (fun n => tok n ++ ".nt") := by
    intro rs
    induction rs with
    | nil => intro st h; exact h
    | cons r rs ih =>
      intro st h
      rw [List.foldl_cons]
      exact ih _ (addRoot_values_token _ _ _ _ _ h)
  rw [graphsClosure, key roots ([], 0) (by simp [dictValues])]
  exact (List.nodup_range _).map Hinj

theorem graphsClosure_length (tree : String → List (List String))
    (excl : String → String → Bool) (nm : Nat → String → String)
    (roots : List String)
    (Htrans : ∀ r x, x ∈ (tree r).flatten → ∀ y ∈ (tree x).flatten,
      y ∈ (tree r).flatten)
    (Hexcl : ∀ r ∈ roots, ∀ x ∈ (tree r).flatten, excl r x = false) :
    (graphsClosure tree excl nm roots).length =
      (roots ++ (roots.map fun r => (tree r).flatten).flatten).toFinset.card := by
  have hnodup := graphsClosure_keys_nodup tree excl nm roots
  have hiff := graphsClosure_keys_iff tree excl nm roots Htrans Hexcl
  have hlen : (dictKeys (graphsClosure tree excl nm roots)).length =
      (graphsClosure tree excl nm roots).length := by
    simp [dictKeys]
  have hset : (dictKeys (graphsClosure tree excl nm roots)).toFinset =
      (roots ++ (roots.map fun r => (tree r).flatten).flatten).toFinset := by
    ext k
    rw [List.mem_toFinset, List.mem_toFinset, hiff k, List.mem_append]
    constructor
    · rintro (h | ⟨r, hr, h⟩)
      · exact Or.inl h
      · exact Or.inr (List.mem_flatten.mpr
          ⟨(tree r).flatten, List.mem_map.mpr ⟨r, hr, rfl⟩, h⟩)
    · rintro (h | h)
      · exact Or.inl h
      · obtain ⟨l, hl, hk⟩ := List.mem_flatten.mp h
        obtain ⟨r, hr, rfl⟩ := List.mem_map.mp hl
        exact Or.inr ⟨r, hr, hk⟩
  rw [← hlen, ← List.toFinset_card_of_nodup hnodup, hset]

/-- Counterexample to claim C7: the slug filename transform is not injective,
so the resolved closure mapping can assign the same local filename to two
distinct graphs.  With the two distinct roots `http://a.b` and `http://a_b`
(and empty import trees) the robot variant returns two entries whose
filenames coincide (`http__a_b.nt`), refuting pairwise-distinct filenames
"in both the random-token variant and the slug variant". -/
theorem c7_slug_filenames_not_distinct :
    "http://a.b" ≠ "http://a_b" ∧
    convert_iri_to_filename "http://a.b" = convert_iri_to_filename "http://a_b" ∧
    (get_graphs_tree_robot (fun _ => []) "http://a.b" "http://a_b").length = 2 ∧
    ¬ (dictValues (get_graphs_tree_robot (fun _ => []) "http://a.b" "http://a_b")).Nodup := by
  exact ⟨by decide, by decide, by decide, by decide⟩

/-- Claim C7 amended: under a transitively closed import-tree service, both
closure walks return a mapping whose keys are exactly the roots together with
all reported imports, with no duplicate key (an identifier reached from
multiple roots appears exactly once), every root a key, and exactly N entries
where N is the number of distinct reachable graphs.  Filenames are pairwise
distinct in the random-token variant provided the drawn tokens are distinct;
in the slug variant two distinct identifiers can share a filename (see the
counterexample).  For the utils variant the hypothesis `Hlast` records that
no reported import equals the one-character string `graph_iri[-1]` compared
against on line 97 (true of any IRI of length at least two). -/
theorem c7_closure_resolution (tok : Nat → String)
    (tree : String → List (List String)) (data_g ont_g : String)
    (graph_iris : List String)
    (Htrans : ∀ r x, x ∈ (tree r).flatten → ∀ y ∈ (tree x).flatten,
      y ∈ (tree r).flatten)
    (Hlast : ∀ r ∈ graph_iris.dropLast, ∀ x ∈ (tree r).flatten, x ≠ lastStr r)
    (Hinj : Function.Injective (fun n : Nat => tok n ++ ".nt")) :
    (dictKeys (get_graphs_tree_robot tree data_g ont_g)).Nodup ∧
    data_g ∈ dictKeys (get_graphs_tree_robot tree data_g ont_g) ∧
    ont_g ∈ dictKeys (get_graphs_tree_robot tree data_g ont_g) ∧
    (∀ k, k ∈ dictKeys (get_graphs_tree_robot tree data_g ont_g) ↔
      k ∈ [data_g, ont_g] ∨ ∃ r ∈ [data_g, ont_g], k ∈ (tree r).flatten) ∧
    (get_graphs_tree_robot tree data_g ont_g).length =
      ([data_g, ont_g] ++
        ([data_g, ont_g].map fun r => (tree r).flatten).flatten).toFinset.card ∧
    (dictKeys (get_graphs_tree tok tree graph_iris)).Nodup ∧
    (∀ r ∈ graph_iris.dropLast,
      r ∈ dictKeys (get_graphs_tree tok tree graph_iris)) ∧
    (∀ k, k ∈ dictKeys (get_graphs_tree tok tree graph_iris) ↔
      k ∈ graph_iris.dropLast ∨
        ∃ r ∈ graph_iris.dropLast, k ∈ (tree r).flatten) ∧
    (get_graphs_tree tok tree graph_iris).length =
      (graph_iris.dropLast ++
        (graph_iris.dropLast.map fun r => (tree r).flatten).flatten).toFinset.card ∧
    (dictValues (get_graphs_tree tok tree graph_iris)).Nodup := by
  have hRexcl : ∀ r ∈ [data_g, ont_g], ∀ x ∈ (tree r).flatten,
      (fun (_ _ : String) => false) r x = false := fun _ _ _ _ => rfl
  have hUexcl : ∀ r ∈ graph_iris.dropLast, ∀ x ∈ (tree r).flatten,
      (fun root iri => iri == lastStr root) r x = false := by
    intro r hr x hx
    exact beq_eq_false_iff_ne.mpr (Hlast r hr x hx)
  have hRiff := graphsClosure_keys_iff tree (fun _ _ => false)
    (fun _ iri => convert_iri_to_filename iri) [data_g, ont_g] Htrans hRexcl
  have hUiff := graphsClosure_keys_iff tree (fun root iri => iri == lastStr root)
    (tokenName tok) graph_iris.dropLast Htrans hUexcl
  refine ⟨graphsClosure_keys_nodup _ _ _ _,
    (hRiff data_g).mpr (Or.inl (by simp)),
    (hRiff ont_g).mpr (Or.inl (by simp)),
    hRiff,
    graphsClosure_length _ _ _ _ Htrans hRexcl,
    graphsClosure_keys_nodup _ _ _ _,
    fun r hr => (hUiff r).mpr (Or.inl hr),
    hUiff,
    graphsClosure_length _ _ _ _ Htrans hUexcl,
    graphsClosure_values_token tok tree _ graph_iris.dropLast Hinj⟩

/-- Concrete import-tree service for the C7 witness: the data graph imports
one further graph, everything else imports nothing. -/
def c7TreeExample : String → List (List String) :=
  fun r => if r = "https://ex/data" then [["https://ex/x"]] else []

/-- Concrete token stream for the C7 witness (pairwise distinct tokens). -/
def c7TokExample : Nat → String :=
  fun n => String.mk (List.replicate n 'a')

/-- Concrete root tuple for the C7 witness. -/
def c7IrisExample : List String :=
  ["https://ex/data", "https://ex/vocab", "https://ex/result"]

theorem c7TreeExample_trans : ∀ r x, x ∈ (c7TreeExample r).flatten →
    ∀ y ∈ (c7TreeExample x).flatten, y ∈ (c7TreeExample r).flatten := by
  intro r x hx y hy
  rw [c7TreeExample] at hx
  split at hx
  · simp at hx
    subst hx
    simp [c7TreeExample] at hy
  · simp at hx

theorem c7TokExample_inj :
    Function.Injective (fun n : Nat => c7TokExample n ++ ".nt") := by
  intro a b h
  have h2 := congrArg (fun s => s.data.length) h
  simp only [c7TokExample, String.data_append] at h2
  simp at h2
  exact h2

/-- Witness for `c7_closure_resolution` at a concrete service, token stream
and root tuple. -/
theorem c7_closure_resolution_witness :
    (dictKeys (get_graphs_tree_robot c7TreeExample "https://ex/data"
      "https://ex/vocab")).Nodup ∧
    "https://ex/data" ∈ dictKeys (get_graphs_tree_robot c7TreeExample
      "https://ex/data" "https://ex/vocab") ∧
    "https://ex/vocab" ∈ dictKeys (get_graphs_tree_robot c7TreeExample
      "https://ex/data" "https://ex/vocab") ∧
    (∀ k, k ∈ dictKeys (get_graphs_tree_robot c7TreeExample "https://ex/data"
        "https://ex/vocab") ↔
      k ∈ ["https://ex/data", "https://ex/vocab"] ∨
        ∃ r ∈ ["https://ex/data", "https://ex/vocab"],
          k ∈ (c7TreeExample r).flatten) ∧
    (get_graphs_tree_robot c7TreeExample "https://ex/data"
      "https://ex/vocab").length =
      (["https://ex/data", "https://ex/vocab"] ++
        (["https://ex/data", "https://ex/vocab"].map fun r =>
          (c7TreeExample r).flatten).flatten).toFinset.card ∧
    (dictKeys (get_graphs_tree c7TokExample c7TreeExample c7IrisExample)).Nodup ∧
    (∀ r ∈ c7IrisExample.dropLast,
      r ∈ dictKeys (get_graphs_tree c7TokExample c7TreeExample c7IrisExample)) ∧
    (∀ k, k ∈ dictKeys (get_graphs_tree c7TokExample c7TreeExample c7IrisExample) ↔
      k ∈ c7IrisExample.dropLast ∨
        ∃ r ∈ c7IrisExample.dropLast, k ∈ (c7TreeExample r).flatten) ∧
    (get_graphs_tree c7TokExample c7TreeExample c7IrisExample).length =
      (c7IrisExample.dropLast ++
        (c7IrisExample.dropLast.map fun r =>
          (c7TreeExample r).flatten).flatten).toFinset.card ∧
    (dictValues (get_graphs_tree c7TokExample c7TreeExample c7IrisExample)).Nodup :=
  c7_closure_resolution c7TokExample c7TreeExample "https://ex/data"
    "https://ex/vocab" c7IrisExample c7TreeExample_trans (by decide)
    c7TokExample_inj
